import Mathlib

/-!
A shallow embedding of `src/reporter.py`, a small CLI that reports
anime-watching progress to AniList.  The program's effectful context
(filesystem, the `base64`/`json` stdlib decoders, `guessit`, the HTTP
client, `datetime.today()`) is modelled by an explicit environment
record; Python exception propagation is modelled with `Except PyExn`,
where `.error e` means the exception `e` escapes the function
uncaught.  Side effects (HTTP POSTs, browser tabs) are collected in an
explicit effect list returned next to the result.
-/

namespace AnilistReporter

/-- The `Status` enum of `reporter.py` (`ok` / `error` / `tokenupdate`). -/
inductive Status where
  | OK
  | ERROR
  | TOKEN_UPDATE_NEEDED
deriving DecidableEq, Repr

/-- The `Result` dataclass: a status plus an optional message. -/
structure Result where
  status : Status
  message : Option String
deriving DecidableEq, Repr

/-- Python values as produced by `json.load`/`json.loads`.  The numeric
fields this program reads from JSON (`exp`, `media_id`) are integral, so
numbers are modelled as integers; objects are association lists (the
program never builds one with a duplicate key). -/
inductive PyVal where
  | obj (fields : List (String × PyVal))
  | list (items : List PyVal)
  | str (s : String)
  | int (n : Int)
  | bool (b : Bool)
  | pynone

/-- The Python exceptions this program can encounter.  `valueError`
covers `json.JSONDecodeError` and `binascii.Error`, both subclasses of
`ValueError`; the payload strings are the exceptions' `str(e)` texts. -/
inductive PyExn where
  | fileNotFound
  | keyError (k : String)
  | typeError (msg : String)
  | valueError (msg : String)
deriving DecidableEq, Repr

/-- Python `str(e)` for the modelled exceptions (`str` of a `KeyError`
is the repr of the missing key, i.e. quoted). -/
def PyExn.text : PyExn → String
  | .fileNotFound => "[Errno 2] No such file or directory"
  | .keyError k => "\x27" ++ k ++ "\x27"
  | .typeError m => m
  | .valueError m => m

/-- Python subscription `v[key]` with a string key on a decoded JSON
value: objects look the key up (first binding; `KeyError` when absent),
every other value raises a `TypeError`. -/
def PyVal.subscript : PyVal → String → Except PyExn PyVal
  | .obj fields, k =>
      match fields.lookup k with
      | some v => .ok v
      | Option.none => .error (.keyError k)
  | .list _, _ => .error (.typeError "list indices must be integers or slices, not str")
  | .str _, _ => .error (.typeError "string indices must be integers")
  | .int _, _ => .error (.typeError "int object is not subscriptable")
  | .bool _, _ => .error (.typeError "bool object is not subscriptable")
  | .pynone, _ => .error (.typeError "NoneType object is not subscriptable")

/-- The numeric value `datetime.fromtimestamp` accepts, when the
argument is one (`bool` is a Python `int`); `Option.none` models the
`TypeError` raised on non-numeric arguments. -/
def PyVal.asTimestamp : PyVal → Option Int
  | .int n => some n
  | .bool b => some (if b then 1 else 0)
  | _ => Option.none

/-- Python `str(v)` as used by f-string interpolation in
`browse`.  Media identifiers in sidecar files are scalars, which are
rendered faithfully; the container reprs are not needed by any caller
and are left abstract. -/
def PyVal.pyStr : PyVal → String
  | .int n => toString n
  | .str s => s
  | .bool b => if b then "True" else "False"
  | .pynone => "None"
  | .obj _ => "<dict repr>"
  | .list _ => "<list repr>"

/-- Python `token.split('.')` on the character list of the token:
splits on every dot, keeping empty segments (`''.split('.') == ['']`). -/
def splitDot : List Char → List (List Char)
  | [] => [[]]
  | c :: rest =>
      if c = '.' then [] :: splitDot rest
      else
        match splitDot rest with
        | [] => [[c]]
        | g :: gs => (c :: g) :: gs

/-- `posixpath.dirname`: everything up to the last slash, with trailing
slashes stripped from the head unless the head is all slashes. -/
def posix_dirname (s : String) : String :=
  let l := s.data
  let head := l.take (l.length - (l.reverse.takeWhile (fun c => c ≠ '/')).length)
  if head ≠ [] ∧ head.any (fun c => c ≠ '/') then
    String.mk (head.reverse.dropWhile (fun c => c = '/')).reverse
  else
    String.mk head

/-- `posixpath.basename`: everything after the last slash. -/
def posix_basename (s : String) : String :=
  String.mk (s.data.reverse.takeWhile (fun c => c ≠ '/')).reverse

/-- `posixpath.join` for two components, as `os.path.join` uses it. -/
def posix_join (a b : String) : String :=
  if b.data.head? = some '/' then b
  else if a.data = [] ∨ a.data.getLast? = some '/' then a ++ b
  else a ++ "/" ++ b

/-- The first occurrence of two consecutive decimal digits, i.e. the
match of `re.search(r'\d{2}', ·)`, returned as the matched pair of
characters. -/
def firstTwoDigitRun : List Char → Option (Char × Char)
  | [] => Option.none
  | [_] => Option.none
  | a :: b :: rest =>
      if a.isDigit ∧ b.isDigit then some (a, b)
      else firstTwoDigitRun (b :: rest)

/-- The value of a decimal digit character. -/
def digitVal (c : Char) : Int := (c.toNat : Int) - 48

/-- The GraphQL request bodies the program can POST: the
report-progress mutation, the search query and the set-score mutation,
each with its `variables`.  `mediaId` is the raw JSON value read from
the sidecar file; the score travels opaquely from the CLI to the
request and is carried as an exact rational. -/
inductive ReqBody where
  | reportBody (mediaId : PyVal) (progress : Int)
  | searchBody (searchStr : String)
  | scoreBody (mediaId : PyVal) (score : Rat)

/-- An HTTP response as `requests.post` returns it: status code, body
text, and the result of `response.json()` (which may raise). -/
structure HttpResp where
  status_code : Nat
  text : String
  jsonVal : Except PyExn PyVal

/-- The observable side effects of one invocation. -/
inductive Effect where
  | httpPost (authHeader : String) (body : ReqBody)
  | openNewTab (url : String)

/-- The effectful context of one invocation: the contents of
`<SCRIPT_DIR>/.anilist.jwt` (`Option.none` models `FileNotFoundError`
on `open`), the composite `json.loads(base64.b64decode ·)` decoder
applied to the token's middle segment, `datetime.today()` in Unix
seconds, the filesystem for sidecar reads, `json.load` on file
contents, the `guessit` episode guess (`some n` models an `'episode'`
match whose `int(·)` conversion yields `n`), and the HTTP POST
transport. -/
structure Env where
  tokenFile : Option String
  decodeB64Json : String → Except PyExn PyVal
  now : Int
  readFile : String → Option String
  jsonLoads : String → Except PyExn PyVal
  guessitEpisode : String → Option Int
  post : ReqBody → HttpResp

/-- `timedelta(weeks=2)` in seconds. -/
def twoWeeks : Int := 14 * 24 * 60 * 60

/-- Python f-string rendering of an `Optional[str]`. -/
def pyFmtOpt : Option String → String
  | some s => s
  | Option.none => "None"

/-- `auth()`.  The `try` block covers the file read, the three-part
check and the payload decode; `FileNotFoundError` maps to
TOKEN_UPDATE_NEEDED, any other exception to a generic ERROR.  The
`exp` lookup and the expiry comparison happen after the handlers, so
their exceptions escape. -/
def auth (env : Env) : Except PyExn Result :=
  match env.tokenFile with
  | Option.none =>
      .ok ⟨.TOKEN_UPDATE_NEEDED,
        some "Access token has not been found, it is needed in order to track progress."⟩
  | some token =>
      if (splitDot token.data).length ≠ 3 then
        .ok ⟨.TOKEN_UPDATE_NEEDED, some "Wrong number of parts"⟩
      else
        match env.decodeB64Json (String.mk ((splitDot token.data).getD 1 [])) with
        | .error PyExn.fileNotFound =>
            .ok ⟨.TOKEN_UPDATE_NEEDED,
              some "Access token has not been found, it is needed in order to track progress."⟩
        | .error e => .ok ⟨.ERROR, some ("Error on token read: " ++ e.text)⟩
        | .ok second_part =>
            match second_part.subscript "exp" with
            | .error e => .error e
            | .ok v =>
                match v.asTimestamp with
                | Option.none =>
                    .error (.typeError "an integer is required (got type str)")
                | some expiration =>
                    if expiration - env.now < twoWeeks then
                      .ok ⟨.TOKEN_UPDATE_NEEDED,
                        some "Access token has expired or expiring, please update it."⟩
                    else
                      .ok ⟨.OK, some token⟩

/-- The sidecar path `os.path.join(os.path.dirname(filename), '.anilist.json')`. -/
def sidecarPath (filename : String) : String :=
  posix_join (posix_dirname filename) ".anilist.json"

/-- The `try` body of `get_media_id(filename)`: open the sidecar file
(raising `FileNotFoundError` when absent), `json.load` it, then
subscript `['media_id']`. -/
def get_media_id_try (env : Env) (filename : String) : Except PyExn PyVal :=
  match env.readFile (sidecarPath filename) with
  | Option.none => .error .fileNotFound
  | some content =>
      match env.jsonLoads content with
      | .error e => .error e
      | .ok v => v.subscript "media_id"

/-- `get_media_id(filename)`: run the `try` body, then dispatch its
exception handlers.  Only `FileNotFoundError` and `KeyError` are
handled, every other exception escapes.  On success the raw JSON value
is returned (`Sum.inr`); handled failures return a `Result`
(`Sum.inl`), which callers detect with `isinstance`. -/
def get_media_id (env : Env) (filename : String) : Except PyExn (Result ⊕ PyVal) :=
  match get_media_id_try env filename with
  | .ok media_id => .ok (.inr media_id)
  | .error .fileNotFound => .ok (.inl ⟨.ERROR, some "Could not found mediaId"⟩)
  | .error (.keyError _) => .ok (.inl ⟨.ERROR, some "Media file does not have media_id"⟩)
  | .error e => .error e

/-- The error message for a non-200 HTTP response, shared verbatim by
`report`, `search` and `set_score`. -/
def non200Msg (resp : HttpResp) : String :=
  "Got unexpected response from anilist: [" ++ toString resp.status_code ++ "] " ++ resp.text

/-- The tail of `report` once the episode number is known: sidecar
lookup, then the report-progress POST with the bearer header built
from the auth result's message. -/
def report_post (env : Env) (filename : String) (a : Result) (episode : Int) :
    Except PyExn Result × List Effect :=
  match get_media_id env filename with
  | .error e => (.error e, [])
  | .ok (.inl r) => (.ok r, [])
  | .ok (.inr media_id) =>
      let body := ReqBody.reportBody media_id episode
      let resp := env.post body
      let effs := [Effect.httpPost ("Bearer " ++ pyFmtOpt a.message) body]
      if resp.status_code ≠ 200 then
        (.ok ⟨.ERROR, some (non200Msg resp)⟩, effs)
      else
        (.ok ⟨.OK, Option.none⟩, effs)

/-- `report(filename)`: auth gate, episode resolution via `guessit`
with the two-digit regex fallback on the base name, then
`report_post`. -/
def report (env : Env) (filename : String) : Except PyExn Result × List Effect :=
  match auth env with
  | .error e => (.error e, [])
  | .ok a =>
      if a.status ≠ Status.OK then (.ok a, [])
      else
        match env.guessitEpisode filename with
        | some episode => report_post env filename a episode
        | Option.none =>
            match firstTwoDigitRun (posix_basename filename).data with
            | Option.none => (.ok ⟨.ERROR, some "Could not determine episode"⟩, [])
            | some (c1, c2) =>
                report_post env filename a (10 * digitVal c1 + digitVal c2)

/-- The episode `report` determines for a filename, by either route:
the `guessit` match when there is one, otherwise the first
two-consecutive-digit substring of the base name (as its integer
value); `Option.none` when neither route yields an episode. -/
def resolve_episode (env : Env) (filename : String) : Option Int :=
  match env.guessitEpisode filename with
  | some episode => some episode
  | Option.none =>
      match firstTwoDigitRun (posix_basename filename).data with
      | Option.none => Option.none
      | some (c1, c2) => some (10 * digitVal c1 + digitVal c2)

/-- What `search` returns: either a plain `Result` (auth failure or
non-200) or a `SearchResult` carrying the `data.Page.media` value of
the response. -/
inductive RValue where
  | plain (r : Result)
  | searchR (status : Status) (message : Option String) (page : PyVal)

/-- The status field of either `search` return shape. -/
def RValue.statusOf : RValue → Status
  | .plain r => r.status
  | .searchR s _ _ => s

/-- The message field of either `search` return shape. -/
def RValue.messageOf : RValue → Option String
  | .plain r => r.message
  | .searchR _ m _ => m

/-- `search(query)`: auth gate, the search POST, then
`response.json()['data']['Page']['media']` (whose failures escape
uncaught). -/
def search (env : Env) (query : String) : Except PyExn RValue × List Effect :=
  match auth env with
  | .error e => (.error e, [])
  | .ok a =>
      if a.status ≠ Status.OK then (.ok (.plain a), [])
      else
        let body := ReqBody.searchBody query
        let resp := env.post body
        let effs := [Effect.httpPost ("Bearer " ++ pyFmtOpt a.message) body]
        if resp.status_code ≠ 200 then
          (.ok (.plain ⟨.ERROR, some (non200Msg resp)⟩), effs)
        else
          match (do
              let j ← resp.jsonVal
              let d ← j.subscript "data"
              let p ← d.subscript "Page"
              p.subscript "media" : Except PyExn PyVal) with
          | .error e => (.error e, effs)
          | .ok media => (.ok (.searchR .OK Option.none media), effs)

/-- `set_score(filename, score)`: auth gate, sidecar lookup, then the
set-score POST. -/
def set_score (env : Env) (filename : String) (score : Rat) :
    Except PyExn Result × List Effect :=
  match auth env with
  | .error e => (.error e, [])
  | .ok a =>
      if a.status ≠ Status.OK then (.ok a, [])
      else
        match get_media_id env filename with
        | .error e => (.error e, [])
        | .ok (.inl r) => (.ok r, [])
        | .ok (.inr media_id) =>
            let body := ReqBody.scoreBody media_id score
            let resp := env.post body
            let effs := [Effect.httpPost ("Bearer " ++ pyFmtOpt a.message) body]
            if resp.status_code ≠ 200 then
              (.ok ⟨.ERROR, some (non200Msg resp)⟩, effs)
            else
              (.ok ⟨.OK, Option.none⟩, effs)

/-- `browse(filename)`: sidecar lookup (no auth), then open
`https://anilist.co/anime/<media_id>` in a new browser tab. -/
def browse (env : Env) (filename : String) : Except PyExn Result × List Effect :=
  match get_media_id env filename with
  | .error e => (.error e, [])
  | .ok (.inl r) => (.ok r, [])
  | .ok (.inr media_id) =>
      (.ok ⟨.OK, Option.none⟩,
       [Effect.openNewTab ("https://anilist.co/anime/" ++ media_id.pyStr)])

/-! ### Helper lemmas -/

/-- When `auth` succeeds with an OK status, the token file was present
and the result's message is exactly its raw contents. -/
theorem auth_ok_shape {env : Env} {a : Result} (h : auth env = .ok a)
    (hs : a.status = .OK) : ∃ t, env.tokenFile = some t ∧ a = ⟨.OK, some t⟩ := by
  unfold auth at h
  split at h
  · cases h; simp_all
  case _ token heq =>
    refine ⟨token, heq, ?_⟩
    split at h
    · cases h; simp_all
    · split at h
      · cases h; simp_all
      · cases h; simp_all
      · split at h
        · cases h
        · split at h
          · cases h
          · split at h
            · cases h; simp_all
            · cases h; rfl

/-- `get_media_id` produces a `Result` exactly from its two handlers. -/
theorem get_media_id_inl_shape {env : Env} {filename : String} {r : Result}
    (h : get_media_id env filename = .ok (.inl r)) :
    r = ⟨.ERROR, some "Could not found mediaId"⟩ ∨
    r = ⟨.ERROR, some "Media file does not have media_id"⟩ := by
  unfold get_media_id at h
  split at h
  · cases h
  · cases h; left; rfl
  · cases h; right; rfl
  · cases h

/-- Normal form of `auth` on a token file with three dot-separated
segments whose payload decodes to a JSON object with an integral
`exp`. -/
theorem auth_valid_token {env : Env} {token : String}
    {fields : List (String × PyVal)} {exp : Int}
    (htok : env.tokenFile = some token)
    (hlen : (splitDot token.data).length = 3)
    (hdec : env.decodeB64Json (String.mk ((splitDot token.data).getD 1 [])) =
      .ok (.obj fields))
    (hexp : fields.lookup "exp" = some (.int exp)) :
    auth env =
      if exp - env.now < twoWeeks then
        .ok ⟨.TOKEN_UPDATE_NEEDED, some "Access token has expired or expiring, please update it."⟩
      else
        .ok ⟨.OK, some token⟩ := by
  have h3 : ((splitDot token.data).length ≠ 3) = False := by simp [hlen]
  simp only [auth, htok, h3, if_false, hdec, PyVal.subscript, hexp, PyVal.asTimestamp]

/-! ### Claim theorems -/

/-- C1: for a token file whose contents split into exactly three
dot-separated segments and whose middle segment decodes to JSON with an
`exp` Unix timestamp, `auth` returns TOKEN_UPDATE_NEEDED exactly when
`exp - now` is below two weeks, and otherwise returns OK carrying the
raw token string as the message. -/
theorem auth_expiry_check (env : Env) (token : String)
    (fields : List (String × PyVal)) (exp : Int)
    (htok : env.tokenFile = some token)
    (hlen : (splitDot token.data).length = 3)
    (hdec : env.decodeB64Json (String.mk ((splitDot token.data).getD 1 [])) =
      .ok (.obj fields))
    (hexp : fields.lookup "exp" = some (.int exp)) :
    (auth env =
        .ok ⟨.TOKEN_UPDATE_NEEDED, some "Access token has expired or expiring, please update it."⟩
      ↔ exp - env.now < twoWeeks)
    ∧ (¬ exp - env.now < twoWeeks → auth env = .ok ⟨.OK, some token⟩) := by
  have key := auth_valid_token htok hlen hdec hexp
  refine ⟨⟨fun h => ?_, fun h => by rw [key, if_pos h]⟩, fun h => by rw [key, if_neg h]⟩
  by_contra hge
  rw [key, if_neg hge] at h
  simp at h

/-- A token expiring one second short of two weeks from now. -/
def envNearExpiry : Env :=
  { tokenFile := some "hd.pl.sg"
    decodeB64Json := fun s =>
      if s = "pl" then .ok (.obj [("exp", .int 2209599)]) else .error (.valueError "bad base64")
    now := 1000000
    readFile := fun _ => Option.none
    jsonLoads := fun _ => .error (.valueError "Expecting value")
    guessitEpisode := fun _ => Option.none
    post := fun _ => { status_code := 200, text := "", jsonVal := .ok .pynone } }

theorem auth_expiry_check_witness :
    ((auth envNearExpiry =
        .ok ⟨.TOKEN_UPDATE_NEEDED, some "Access token has expired or expiring, please update it."⟩
      ↔ (2209599 : Int) - envNearExpiry.now < twoWeeks)
      ∧ (¬ (2209599 : Int) - envNearExpiry.now < twoWeeks →
          auth envNearExpiry = .ok ⟨.OK, some "hd.pl.sg"⟩))
    ∧ auth envNearExpiry =
        .ok ⟨.TOKEN_UPDATE_NEEDED, some "Access token has expired or expiring, please update it."⟩ :=
  ⟨auth_expiry_check envNearExpiry "hd.pl.sg" [("exp", .int 2209599)] 2209599
      rfl rfl rfl rfl,
    rfl⟩

/-- C2: `auth` returns TOKEN_UPDATE_NEEDED both when the token file is
absent (with a message saying the token has not been found) and when
its contents do not split into exactly three dot-separated segments
(with the wrong-number-of-parts message). -/
theorem auth_missing_or_malformed (env : Env) (token : String) :
    (env.tokenFile = Option.none →
      auth env =
        .ok ⟨.TOKEN_UPDATE_NEEDED,
          some "Access token has not been found, it is needed in order to track progress."⟩)
    ∧ (env.tokenFile = some token → (splitDot token.data).length ≠ 3 →
      auth env = .ok ⟨.TOKEN_UPDATE_NEEDED, some "Wrong number of parts"⟩) := by
  constructor
  · intro h
    simp [auth, h]
  · intro h hlen
    simp [auth, h, hlen]

/-- No token file at all. -/
def envNoToken : Env :=
  { envNearExpiry with tokenFile := Option.none }

/-- A token with two dot-separated segments instead of three. -/
def envMalformedToken : Env :=
  { envNearExpiry with tokenFile := some "head.tail" }

theorem auth_missing_or_malformed_witness :
    auth envNoToken =
      .ok ⟨.TOKEN_UPDATE_NEEDED,
        some "Access token has not been found, it is needed in order to track progress."⟩
    ∧ auth envMalformedToken =
      .ok ⟨.TOKEN_UPDATE_NEEDED, some "Wrong number of parts"⟩ :=
  ⟨(auth_missing_or_malformed envNoToken "x").1 rfl,
    (auth_missing_or_malformed envMalformedToken "head.tail").2 rfl (by decide)⟩

/-- C3: when the middle segment of a three-segment token fails to
base64-decode or to parse as JSON (a `ValueError`, covering
`binascii.Error` and `json.JSONDecodeError`), `auth` returns an ERROR
result — not TOKEN_UPDATE_NEEDED and not an escaping exception — whose
message contains the exception text. -/
theorem auth_decode_failure (env : Env) (token msg : String)
    (htok : env.tokenFile = some token)
    (hlen : (splitDot token.data).length = 3)
    (hdec : env.decodeB64Json (String.mk ((splitDot token.data).getD 1 [])) =
      .error (.valueError msg)) :
    auth env = .ok ⟨.ERROR, some ("Error on token read: " ++ msg)⟩
    ∧ msg.data <:+: ("Error on token read: " ++ msg).data := by
  constructor
  · have h3 : ((splitDot token.data).length ≠ 3) = False := by simp [hlen]
    simp only [auth, htok, h3, if_false, hdec, PyExn.text]
  · exact ⟨"Error on token read: ".data, [], by simp [String.data_append]⟩

/-- A three-segment token whose payload is not valid base64/JSON. -/
def envBadPayload : Env :=
  { envNearExpiry with
    tokenFile := some "hd.%%.sg"
    decodeB64Json := fun _ => .error (.valueError "Invalid base64-encoded string") }

theorem auth_decode_failure_witness :
    auth envBadPayload =
      .ok ⟨.ERROR, some ("Error on token read: " ++ "Invalid base64-encoded string")⟩
    ∧ "Invalid base64-encoded string".data <:+:
        ("Error on token read: " ++ "Invalid base64-encoded string").data :=
  auth_decode_failure envBadPayload "hd.%%.sg" "Invalid base64-encoded string" rfl rfl rfl

/-- C9: when the payload of a three-segment token decodes to a JSON
object without an `exp` key, `auth` does not return a `Result`: the
subscript happens outside the `try`, so the `KeyError` escapes. -/
theorem auth_missing_exp_crashes (env : Env) (token : String)
    (fields : List (String × PyVal))
    (htok : env.tokenFile = some token)
    (hlen : (splitDot token.data).length = 3)
    (hdec : env.decodeB64Json (String.mk ((splitDot token.data).getD 1 [])) =
      .ok (.obj fields))
    (hexp : fields.lookup "exp" = Option.none) :
    auth env = .error (.keyError "exp") := by
  have h3 : ((splitDot token.data).length ≠ 3) = False := by simp [hlen]
  simp only [auth, htok, h3, if_false, hdec, PyVal.subscript, hexp]

/-- A decodable payload that lacks the `exp` key. -/
def envNoExp : Env :=
  { envNearExpiry with
    tokenFile := some "hd.py.sg"
    decodeB64Json := fun s =>
      if s = "py" then .ok (.obj [("iat", .int 5)]) else .error (.valueError "bad base64") }

theorem auth_missing_exp_crashes_witness :
    auth envNoExp = .error (.keyError "exp") :=
  auth_missing_exp_crashes envNoExp "hd.py.sg" [("iat", .int 5)] rfl rfl rfl rfl

/-- C4: when `guessit` yields no episode field (after an OK auth),
`report` falls back to the first two-consecutive-digit substring of
the filename's base name as the episode; when the base name has no
such substring, it returns ERROR "Could not determine episode" with no
side effects (in particular no HTTP request). -/
theorem report_episode_fallback (env : Env) (filename : String) (a : Result)
    (hauth : auth env = .ok a) (hok : a.status = .OK)
    (hguess : env.guessitEpisode filename = Option.none) :
    (firstTwoDigitRun (posix_basename filename).data = Option.none →
      report env filename = (.ok ⟨.ERROR, some "Could not determine episode"⟩, []))
    ∧ (∀ c1 c2, firstTwoDigitRun (posix_basename filename).data = some (c1, c2) →
        ∀ media_id, get_media_id env filename = .ok (.inr media_id) →
          ∃ hdr, (report env filename).2 =
            [Effect.httpPost hdr (.reportBody media_id (10 * digitVal c1 + digitVal c2))]) := by
  have hcond : (a.status ≠ Status.OK) = False := by simp [hok]
  constructor
  · intro h
    simp only [report, hauth, hcond, if_false, hguess, h]
  · intro c1 c2 h media_id hmid
    simp only [report, hauth, hcond, if_false, hguess, h, report_post, hmid]
    split
    · exact ⟨_, rfl⟩
    · exact ⟨_, rfl⟩

/-- A fresh token, no `guessit` episode, and a sidecar file carrying
media id 777 for directory `dir`. -/
def envReportOk : Env :=
  { tokenFile := some "hd.pl.sg"
    decodeB64Json := fun s =>
      if s = "pl" then .ok (.obj [("exp", .int 100000000)]) else .error (.valueError "bad base64")
    now := 0
    readFile := fun p => if p = "dir/.anilist.json" then some "sidecar json" else Option.none
    jsonLoads := fun s =>
      if s = "sidecar json" then .ok (.obj [("media_id", .int 777)])
      else .error (.valueError "Expecting value")
    guessitEpisode := fun _ => Option.none
    post := fun _ => { status_code := 200, text := "", jsonVal := .ok (.list []) } }

theorem report_episode_fallback_witness :
    report envReportOk "dir/NoDigitsHere.mkv" =
      (.ok ⟨.ERROR, some "Could not determine episode"⟩, [])
    ∧ ∃ hdr, (report envReportOk "dir/Show.EP42.mkv").2 =
        [Effect.httpPost hdr (.reportBody (.int 777) (10 * digitVal '4' + digitVal '2'))] :=
  ⟨(report_episode_fallback envReportOk "dir/NoDigitsHere.mkv" ⟨.OK, some "hd.pl.sg"⟩
      rfl rfl rfl).1 rfl,
    (report_episode_fallback envReportOk "dir/Show.EP42.mkv" ⟨.OK, some "hd.pl.sg"⟩
      rfl rfl rfl).2 '4' '2' rfl (.int 777) rfl⟩

/-- C8: `browse` never consults the token (its outcome is unchanged
under any change to the token file, payload decoder and clock), so it
can never return TOKEN_UPDATE_NEEDED; when the sidecar lookup yields a
media id, it opens `https://anilist.co/anime/<id>` in a new browser
tab and returns OK. -/
theorem browse_no_token_check (env env2 : Env) (filename : String)
    (hr : env2.readFile = env.readFile) (hj : env2.jsonLoads = env.jsonLoads) :
    browse env2 filename = browse env filename
    ∧ (∀ r effs, browse env filename = (.ok r, effs) → r.status ≠ .TOKEN_UPDATE_NEEDED)
    ∧ (∀ id : Int, get_media_id env filename = .ok (.inr (.int id)) →
        browse env filename =
          (.ok ⟨.OK, Option.none⟩,
           [Effect.openNewTab ("https://anilist.co/anime/" ++ toString id)])) := by
  have hgm : get_media_id env2 filename = get_media_id env filename := by
    unfold get_media_id get_media_id_try
    rw [hr, hj]
  refine ⟨by unfold browse; rw [hgm], fun r effs h => ?_, fun id hmid => ?_⟩
  · unfold browse at h
    split at h
    · cases h
    case _ r0 heq =>
      cases h
      rcases get_media_id_inl_shape heq with h0 | h0 <;> simp [h0]
    · cases h; simp
  · simp only [browse, hmid, PyVal.pyStr]

theorem browse_no_token_check_witness :
    browse { envReportOk with tokenFile := Option.none } "dir/file.mkv" =
      browse envReportOk "dir/file.mkv"
    ∧ browse envReportOk "dir/file.mkv" =
        (.ok ⟨.OK, Option.none⟩,
         [Effect.openNewTab ("https://anilist.co/anime/" ++ toString (777 : Int))]) :=
  ⟨(browse_no_token_check envReportOk { envReportOk with tokenFile := Option.none }
      "dir/file.mkv" rfl rfl).1,
    (browse_no_token_check envReportOk envReportOk "dir/file.mkv" rfl rfl).2.2 777 rfl⟩

/-- After an OK auth, `report` continues as `report_post` with
whichever episode `resolve_episode` determines, by either route
(`guessit` match or two-digit fallback). -/
theorem report_resolved_episode {env : Env} {filename : String} {a : Result} {ep : Int}
    (hauth : auth env = .ok a) (hok : a.status = .OK)
    (hep : resolve_episode env filename = some ep) :
    report env filename = report_post env filename a ep := by
  have hcond : (a.status ≠ Status.OK) = False := by simp [hok]
  unfold resolve_episode at hep
  simp only [report, hauth, hcond, if_false]
  split at hep
  case _ ep0 heq =>
    cases hep
    simp only [heq]
  case _ heq =>
    split at hep
    · cases hep
    case _ c1 c2 heq2 =>
      cases hep
      simp only [heq, heq2]

/-- C5 counterexample: with the sidecar absent but the token file also
absent, `report` returns the auth failure (TOKEN_UPDATE_NEEDED), not
the ERROR "Could not found mediaId" the claim promises for every such
input. -/
theorem sidecar_absent_cex :
    envNoToken.readFile (sidecarPath "dir/file.mkv") = Option.none
    ∧ (report envNoToken "dir/file.mkv").1 =
        .ok ⟨.TOKEN_UPDATE_NEEDED,
          some "Access token has not been found, it is needed in order to track progress."⟩
    ∧ Status.TOKEN_UPDATE_NEEDED ≠ Status.ERROR :=
  ⟨rfl, rfl, by decide⟩

/-- C5 (amended): an absent sidecar gives `get_media_id` and `browse`
the ERROR "Could not found mediaId" (a present sidecar whose JSON
object lacks `media_id` gives "Media file does not have media_id");
`report` and `score` return the same ERROR result once auth has
returned OK and, for `report`, an episode has been determined. -/
theorem sidecar_errors (env : Env) (filename : String) :
    (env.readFile (sidecarPath filename) = Option.none →
      get_media_id env filename = .ok (.inl ⟨.ERROR, some "Could not found mediaId"⟩)
      ∧ browse env filename = (.ok ⟨.ERROR, some "Could not found mediaId"⟩, []))
    ∧ (∀ content fields, env.readFile (sidecarPath filename) = some content →
        env.jsonLoads content = .ok (.obj fields) →
        fields.lookup "media_id" = Option.none →
        get_media_id env filename =
          .ok (.inl ⟨.ERROR, some "Media file does not have media_id"⟩)
        ∧ browse env filename =
          (.ok ⟨.ERROR, some "Media file does not have media_id"⟩, []))
    ∧ (∀ a r, auth env = .ok a → a.status = .OK →
        get_media_id env filename = .ok (.inl r) →
        (∀ ep, resolve_episode env filename = some ep →
          report env filename = (.ok r, []))
        ∧ (∀ score, set_score env filename score = (.ok r, []))) := by
  refine ⟨fun h => ?_, fun content fields h hj hk => ?_, fun a r hauth hok hmid => ?_⟩
  · have hg : get_media_id env filename =
        .ok (.inl ⟨.ERROR, some "Could not found mediaId"⟩) := by
      unfold get_media_id get_media_id_try
      simp only [h]
    exact ⟨hg, by simp only [browse, hg]⟩
  · have hg : get_media_id env filename =
        .ok (.inl ⟨.ERROR, some "Media file does not have media_id"⟩) := by
      unfold get_media_id get_media_id_try
      simp only [h, hj, PyVal.subscript, hk]
    exact ⟨hg, by simp only [browse, hg]⟩
  · have hcond : (a.status ≠ Status.OK) = False := by simp [hok]
    constructor
    · intro ep hep
      rw [report_resolved_episode hauth hok hep]
      simp only [report_post, hmid]
    · intro score
      simp only [set_score, hauth, hcond, if_false, hmid]

/-- A sidecar whose JSON object has no `media_id` key, together with a
valid fresh token (and no `guessit` episode, so `report` takes the
two-digit fallback route). -/
def envNoMediaKey : Env :=
  { envReportOk with
    jsonLoads := fun s =>
      if s = "sidecar json" then .ok (.obj [("name", .str "A")])
      else .error (.valueError "Expecting value") }

theorem sidecar_errors_witness :
    (get_media_id envReportOk "other/file.mkv" =
        .ok (.inl ⟨.ERROR, some "Could not found mediaId"⟩)
      ∧ browse envReportOk "other/file.mkv" =
        (.ok ⟨.ERROR, some "Could not found mediaId"⟩, []))
    ∧ (get_media_id envNoMediaKey "dir/file.mkv" =
        .ok (.inl ⟨.ERROR, some "Media file does not have media_id"⟩)
      ∧ browse envNoMediaKey "dir/file.mkv" =
        (.ok ⟨.ERROR, some "Media file does not have media_id"⟩, []))
    ∧ report envNoMediaKey "dir/Show.EP42.mkv" =
        (.ok ⟨.ERROR, some "Media file does not have media_id"⟩, [])
    ∧ set_score envNoMediaKey "dir/file.mkv" 7 =
        (.ok ⟨.ERROR, some "Media file does not have media_id"⟩, []) :=
  ⟨(sidecar_errors envReportOk "other/file.mkv").1 rfl,
    (sidecar_errors envNoMediaKey "dir/file.mkv").2.1 "sidecar json" [("name", .str "A")]
      rfl rfl rfl,
    ((sidecar_errors envNoMediaKey "dir/Show.EP42.mkv").2.2 ⟨.OK, some "hd.pl.sg"⟩
        ⟨.ERROR, some "Media file does not have media_id"⟩ rfl rfl rfl).1 42 rfl,
    ((sidecar_errors envNoMediaKey "dir/file.mkv").2.2 ⟨.OK, some "hd.pl.sg"⟩
        ⟨.ERROR, some "Media file does not have media_id"⟩ rfl rfl rfl).2 7⟩

/-- A sidecar file that exists but does not parse as JSON, with no
token file. -/
def envBadSidecar : Env :=
  { envNoToken with readFile := fun _ => some "not json" }

/-- C10 counterexample: with the sidecar present but unparsable,
`get_media_id` does propagate the `JSONDecodeError` uncaught, yet
`report` still returns a `Result` normally (the auth failure) instead
of terminating abnormally as the claim states. -/
theorem get_media_id_uncaught_cex :
    get_media_id envBadSidecar "dir/file.mkv" = .error (.valueError "Expecting value")
    ∧ (report envBadSidecar "dir/file.mkv").1 =
        .ok ⟨.TOKEN_UPDATE_NEEDED,
          some "Access token has not been found, it is needed in order to track progress."⟩ :=
  ⟨rfl, rfl⟩

/-- C10 (amended): `get_media_id` propagates a `JSONDecodeError` (a
`ValueError`) from an unparsable sidecar, and a `TypeError` when the
sidecar holds a JSON list — only `FileNotFoundError` and `KeyError`
are caught.  `browse` then terminates abnormally whenever its lookup
fails this way; `report` and `score` do too once auth has returned OK
and, for `report`, an episode has been determined by either route. -/
theorem get_media_id_uncaught (env : Env) (filename content : String) :
    (env.readFile (sidecarPath filename) = some content →
      (∀ m, env.jsonLoads content = .error (.valueError m) →
        get_media_id env filename = .error (.valueError m))
      ∧ (∀ items, env.jsonLoads content = .ok (.list items) →
        get_media_id env filename =
          .error (.typeError "list indices must be integers or slices, not str")))
    ∧ (∀ e, get_media_id env filename = .error e →
        browse env filename = (.error e, [])
        ∧ (∀ a, auth env = .ok a → a.status = .OK →
            (∀ ep, resolve_episode env filename = some ep →
              report env filename = (.error e, []))
            ∧ (∀ score, set_score env filename score = (.error e, [])))) := by
  refine ⟨fun h => ⟨fun m hj => ?_, fun items hj => ?_⟩, fun e hmid => ?_⟩
  · unfold get_media_id get_media_id_try
    simp only [h, hj]
  · unfold get_media_id get_media_id_try
    simp only [h, hj, PyVal.subscript]
  · refine ⟨by simp only [browse, hmid], fun a hauth hok => ?_⟩
    have hcond : (a.status ≠ Status.OK) = False := by simp [hok]
    constructor
    · intro ep hep
      rw [report_resolved_episode hauth hok hep]
      simp only [report_post, hmid]
    · intro score
      simp only [set_score, hauth, hcond, if_false, hmid]

/-- An unparsable sidecar together with a valid fresh token (and no
`guessit` episode, so `report` takes the two-digit fallback route). -/
def envBadJson : Env :=
  { envReportOk with
    jsonLoads := fun _ => .error (.valueError "Expecting value") }

/-- A sidecar holding a JSON list instead of an object. -/
def envListSidecar : Env :=
  { envReportOk with jsonLoads := fun _ => .ok (.list []) }

theorem get_media_id_uncaught_witness :
    get_media_id envBadJson "dir/file.mkv" = .error (.valueError "Expecting value")
    ∧ browse envBadJson "dir/file.mkv" = (.error (.valueError "Expecting value"), [])
    ∧ report envBadJson "dir/Show.EP42.mkv" = (.error (.valueError "Expecting value"), [])
    ∧ set_score envBadJson "dir/file.mkv" 7 = (.error (.valueError "Expecting value"), [])
    ∧ get_media_id envListSidecar "dir/file.mkv" =
        .error (.typeError "list indices must be integers or slices, not str") :=
  ⟨((get_media_id_uncaught envBadJson "dir/file.mkv" "sidecar json").1 rfl).1
      "Expecting value" rfl,
    ((get_media_id_uncaught envBadJson "dir/file.mkv" "sidecar json").2
      (.valueError "Expecting value") rfl).1,
    (((get_media_id_uncaught envBadJson "dir/Show.EP42.mkv" "sidecar json").2
      (.valueError "Expecting value") rfl).2 ⟨.OK, some "hd.pl.sg"⟩ rfl rfl).1 42 rfl,
    (((get_media_id_uncaught envBadJson "dir/file.mkv" "sidecar json").2
      (.valueError "Expecting value") rfl).2 ⟨.OK, some "hd.pl.sg"⟩ rfl rfl).2 7,
    ((get_media_id_uncaught envListSidecar "dir/file.mkv" "sidecar json").1 rfl).2 [] rfl⟩

/-- The shared non-200 message contains the status code and the body
text verbatim. -/
theorem non200Msg_contains (resp : HttpResp) :
    (toString resp.status_code).data <:+: (non200Msg resp).data
    ∧ resp.text.data <:+: (non200Msg resp).data := by
  constructor
  · exact ⟨"Got unexpected response from anilist: [".data, ("] " ++ resp.text).data,
      by simp [non200Msg, String.data_append]⟩
  · exact ⟨("Got unexpected response from anilist: [" ++ toString resp.status_code ++ "] ").data,
      [], by simp [non200Msg, String.data_append]⟩

/-- C6: whenever `report`, `search` or `set_score` receives an HTTP
response with a status code other than 200, it returns an ERROR result
whose message contains both the numeric status code and the response
body text verbatim. -/
theorem http_non200_reported (env : Env) (filename query : String) (score : Rat)
    (a : Result) (hauth : auth env = .ok a) (hok : a.status = .OK) :
    (∀ ep media_id, resolve_episode env filename = some ep →
      get_media_id env filename = .ok (.inr media_id) →
      (env.post (.reportBody media_id ep)).status_code ≠ 200 →
      ∃ m, (report env filename).1 = .ok ⟨.ERROR, some m⟩
        ∧ (toString (env.post (.reportBody media_id ep)).status_code).data <:+: m.data
        ∧ (env.post (.reportBody media_id ep)).text.data <:+: m.data)
    ∧ ((env.post (.searchBody query)).status_code ≠ 200 →
      ∃ m, (search env query).1 = .ok (.plain ⟨.ERROR, some m⟩)
        ∧ (toString (env.post (.searchBody query)).status_code).data <:+: m.data
        ∧ (env.post (.searchBody query)).text.data <:+: m.data)
    ∧ (∀ media_id, get_media_id env filename = .ok (.inr media_id) →
      (env.post (.scoreBody media_id score)).status_code ≠ 200 →
      ∃ m, (set_score env filename score).1 = .ok ⟨.ERROR, some m⟩
        ∧ (toString (env.post (.scoreBody media_id score)).status_code).data <:+: m.data
        ∧ (env.post (.scoreBody media_id score)).text.data <:+: m.data) := by
  have hcond : (a.status ≠ Status.OK) = False := by simp [hok]
  refine ⟨fun ep media_id hep hmid h200 => ?_, fun h200 => ?_, fun media_id hmid h200 => ?_⟩
  · refine ⟨non200Msg (env.post (.reportBody media_id ep)), ?_,
      (non200Msg_contains _).1, (non200Msg_contains _).2⟩
    rw [report_resolved_episode hauth hok hep]
    simp only [report_post, hmid]
    rw [if_pos h200]
  · refine ⟨non200Msg (env.post (.searchBody query)), ?_,
      (non200Msg_contains _).1, (non200Msg_contains _).2⟩
    simp only [search, hauth, hcond, if_false]
    rw [if_pos h200]
  · refine ⟨non200Msg (env.post (.scoreBody media_id score)), ?_,
      (non200Msg_contains _).1, (non200Msg_contains _).2⟩
    simp only [set_score, hauth, hcond, if_false, hmid]
    rw [if_pos h200]

/-- A server that answers 404 "Not Found" to everything, with a valid
token and a sidecar media id (and no `guessit` episode, so `report`
takes the two-digit fallback route). -/
def envNon200 : Env :=
  { envReportOk with
    post := fun _ => { status_code := 404, text := "Not Found", jsonVal := .ok .pynone } }

theorem http_non200_reported_witness :
    (∃ m, (report envNon200 "dir/Show.EP42.mkv").1 = .ok ⟨.ERROR, some m⟩
      ∧ (toString (404 : Nat)).data <:+: m.data ∧ "Not Found".data <:+: m.data)
    ∧ (∃ m, (search envNon200 "Bleach").1 = .ok (.plain ⟨.ERROR, some m⟩)
      ∧ (toString (404 : Nat)).data <:+: m.data ∧ "Not Found".data <:+: m.data)
    ∧ (∃ m, (set_score envNon200 "dir/file.mkv" 7).1 = .ok ⟨.ERROR, some m⟩
      ∧ (toString (404 : Nat)).data <:+: m.data ∧ "Not Found".data <:+: m.data) :=
  ⟨(http_non200_reported envNon200 "dir/Show.EP42.mkv" "Bleach" 7 ⟨.OK, some "hd.pl.sg"⟩
      rfl rfl).1 42 (.int 777) rfl rfl (by decide),
    (http_non200_reported envNon200 "dir/file.mkv" "Bleach" 7 ⟨.OK, some "hd.pl.sg"⟩
      rfl rfl).2.1 (by decide),
    (http_non200_reported envNon200 "dir/file.mkv" "Bleach" 7 ⟨.OK, some "hd.pl.sg"⟩
      rfl rfl).2.2 (.int 777) rfl (by decide)⟩

/-- `auth` only reads the token file, the payload decoder and the
clock: environments agreeing there authenticate identically. -/
theorem auth_env_agree {env env2 : Env}
    (h1 : env2.tokenFile = env.tokenFile)
    (h2 : env2.decodeB64Json = env.decodeB64Json)
    (h3 : env2.now = env.now) : auth env2 = auth env := by
  unfold auth
  rw [h1, h2, h3]

/-- Every HTTP POST issued by `report_post` carries the bearer header
built from the auth result's message. -/
theorem report_post_effects_header {env : Env} {filename : String} {a : Result}
    {ep : Int} {hdr : String} {body : ReqBody}
    (hmem : Effect.httpPost hdr body ∈ (report_post env filename a ep).2) :
    hdr = "Bearer " ++ pyFmtOpt a.message := by
  simp only [report_post] at hmem
  split at hmem
  · simp at hmem
  · simp at hmem
  · split at hmem <;> (simp at hmem; exact hmem.1)

/-- Every HTTP POST issued by `report` carries the bearer header built
from the auth result's message. -/
theorem report_effects_header {env : Env} {filename : String} {a : Result}
    (hauth : auth env = .ok a) :
    ∀ hdr body, Effect.httpPost hdr body ∈ (report env filename).2 →
      hdr = "Bearer " ++ pyFmtOpt a.message := by
  intro hdr body hmem
  simp only [report, hauth] at hmem
  split at hmem
  · simp at hmem
  · split at hmem
    · exact report_post_effects_header hmem
    · split at hmem
      · simp at hmem
      · exact report_post_effects_header hmem

/-- Every HTTP POST issued by `search` carries the bearer header built
from the auth result's message. -/
theorem search_effects_header {env : Env} {query : String} {a : Result}
    (hauth : auth env = .ok a) :
    ∀ hdr body, Effect.httpPost hdr body ∈ (search env query).2 →
      hdr = "Bearer " ++ pyFmtOpt a.message := by
  intro hdr body hmem
  simp only [search, hauth] at hmem
  split at hmem
  · simp at hmem
  · split at hmem
    · simp at hmem; exact hmem.1
    · split at hmem <;> (simp at hmem; exact hmem.1)

/-- Every HTTP POST issued by `set_score` carries the bearer header
built from the auth result's message. -/
theorem set_score_effects_header {env : Env} {filename : String} {score : Rat}
    {a : Result} (hauth : auth env = .ok a) :
    ∀ hdr body, Effect.httpPost hdr body ∈ (set_score env filename score).2 →
      hdr = "Bearer " ++ pyFmtOpt a.message := by
  intro hdr body hmem
  simp only [set_score, hauth] at hmem
  split at hmem
  · simp at hmem
  · split at hmem
    · simp at hmem
    · simp at hmem
    · split at hmem <;> (simp at hmem; exact hmem.1)

/-- C7: a non-OK auth result is returned unchanged by `report`,
`search` and `set_score`, with no side effects, whatever the resolver,
filesystem and transport oracles are (so no episode resolution,
sidecar lookup or HTTP request happens); after an OK auth, every HTTP
POST any of them issues carries `Authorization: Bearer <token>` with
`<token>` the auth message. -/
theorem auth_gates_operations (env env2 : Env) (filename query : String) (score : Rat)
    (h1 : env2.tokenFile = env.tokenFile)
    (h2 : env2.decodeB64Json = env.decodeB64Json)
    (h3 : env2.now = env.now) :
    (∀ a, auth env = .ok a → a.status ≠ .OK →
      report env2 filename = (.ok a, [])
      ∧ search env2 query = (.ok (.plain a), [])
      ∧ set_score env2 filename score = (.ok a, []))
    ∧ (∀ a, auth env = .ok a → a.status = .OK →
      ∃ t, env.tokenFile = some t ∧ a.message = some t
        ∧ (∀ hdr body, Effect.httpPost hdr body ∈ (report env filename).2 →
            hdr = "Bearer " ++ t)
        ∧ (∀ hdr body, Effect.httpPost hdr body ∈ (search env query).2 →
            hdr = "Bearer " ++ t)
        ∧ (∀ hdr body, Effect.httpPost hdr body ∈ (set_score env filename score).2 →
            hdr = "Bearer " ++ t)) := by
  constructor
  · intro a hauth hne
    have ha2 : auth env2 = .ok a := by rw [auth_env_agree h1 h2 h3, hauth]
    refine ⟨?_, ?_, ?_⟩
    · simp only [report, ha2]
      rw [if_pos hne]
    · simp only [search, ha2]
      rw [if_pos hne]
    · simp only [set_score, ha2]
      rw [if_pos hne]
  · intro a hauth hok
    obtain ⟨t, htok, hshape⟩ := auth_ok_shape hauth hok
    have hmsg : a.message = some t := by rw [hshape]
    have hfmt : "Bearer " ++ pyFmtOpt a.message = "Bearer " ++ t := by
      rw [hmsg]; rfl
    exact ⟨t, htok, hmsg,
      fun hdr body hmem => hfmt ▸ report_effects_header hauth hdr body hmem,
      fun hdr body hmem => hfmt ▸ search_effects_header hauth hdr body hmem,
      fun hdr body hmem => hfmt ▸ set_score_effects_header hauth hdr body hmem⟩

theorem auth_gates_operations_witness :
    (report envBadSidecar "dir/file.mkv" =
        (.ok ⟨.TOKEN_UPDATE_NEEDED,
          some "Access token has not been found, it is needed in order to track progress."⟩, [])
      ∧ search envBadSidecar "Bleach" =
        (.ok (.plain ⟨.TOKEN_UPDATE_NEEDED,
          some "Access token has not been found, it is needed in order to track progress."⟩), [])
      ∧ set_score envBadSidecar "dir/file.mkv" 7 =
        (.ok ⟨.TOKEN_UPDATE_NEEDED,
          some "Access token has not been found, it is needed in order to track progress."⟩, []))
    ∧ (∃ t, envReportOk.tokenFile = some t
        ∧ (Result.mk .OK (some "hd.pl.sg")).message = some t
        ∧ (∀ hdr body,
            Effect.httpPost hdr body ∈ (report envReportOk "dir/Show.EP42.mkv").2 →
            hdr = "Bearer " ++ t)
        ∧ (∀ hdr body, Effect.httpPost hdr body ∈ (search envReportOk "Bleach").2 →
            hdr = "Bearer " ++ t)
        ∧ (∀ hdr body,
            Effect.httpPost hdr body ∈ (set_score envReportOk "dir/Show.EP42.mkv" 7).2 →
            hdr = "Bearer " ++ t)) :=
  ⟨(auth_gates_operations envNoToken envBadSidecar "dir/file.mkv" "Bleach" 7
      rfl rfl rfl).1
      ⟨.TOKEN_UPDATE_NEEDED,
        some "Access token has not been found, it is needed in order to track progress."⟩
      rfl (by decide),
    (auth_gates_operations envReportOk envReportOk "dir/Show.EP42.mkv" "Bleach" 7
      rfl rfl rfl).2 ⟨.OK, some "hd.pl.sg"⟩ rfl rfl⟩

end AnilistReporter
